import Mathlib

/-!
Verification of the request-rate governor (`RateLimiter`) and its call
orchestrator (`SriLankaTourismAgent`) from `src/estate.py`, shallowly
embedded in Lean.  Timestamps are integers counting seconds of a
synthetic clock (`datetime.now()` values); durations are in seconds
(1 minute = 60, 1 day = 86400, 23 hours = 82800).
-/

/-- State of `RateLimiter` (estate.py lines 19-28): two quota limits fixed
at construction and two ordered timestamp windows (`deque`s, front = oldest). -/
structure RateLimiter where
  requests_per_minute : Nat
  requests_per_day : Nat
  minute_requests : List Int
  daily_requests : List Int
deriving Repr, DecidableEq

/-- Fresh governor as built by `RateLimiter.__init__`: both windows empty. -/
def RateLimiter.init (rpm rpd : Nat) : RateLimiter :=
  { requests_per_minute := rpm, requests_per_day := rpd,
    minute_requests := [], daily_requests := [] }

/-- Front-pruning loop `while window and window[0] < cutoff: window.popleft()`
(estate.py lines 37-42 and 70-75). -/
def prune (cutoff : Int) (l : List Int) : List Int :=
  l.dropWhile (fun t => decide (t < cutoff))

/-- Outcome of one `wait_if_needed` call: the governor state afterwards, the
daily-limit exception if one was raised, and the seconds slept. -/
structure WaitResult where
  state : RateLimiter
  error : Option String
  slept : Int
deriving Repr, DecidableEq

/-- Message of the only exception `RateLimiter` raises (estate.py line 46). -/
def dailyLimitMsg (rpd : Nat) : String :=
  "Daily API limit reached (" ++ toString rpd ++ " requests). Please try again tomorrow."

/-- `RateLimiter.wait_if_needed` (estate.py lines 30-61), called at clock
value `now`: prune both windows, fail if the day window is full, otherwise
sleep out the minute window if full, then append `now` — the clock value
captured at entry, not the post-sleep time — to both windows.
`minute.headD 0` is `self.minute_requests[0]`; the window is nonempty
whenever its length reaches `requests_per_minute ≥ 1`. -/
def RateLimiter.wait_if_needed (rl : RateLimiter) (now : Int) : WaitResult :=
  let minute := prune (now - 60) rl.minute_requests
  let daily := prune (now - 86400) rl.daily_requests
  if rl.requests_per_day ≤ daily.length then
    { state := { rl with minute_requests := minute, daily_requests := daily },
      error := some (dailyLimitMsg rl.requests_per_day),
      slept := 0 }
  else
    let slept : Int :=
      if rl.requests_per_minute ≤ minute.length then
        let oldest := minute.headD 0
        let waitTime := oldest + 61 - now
        if 0 < waitTime then waitTime else 0
      else 0
    { state :=
        { rl with
          minute_requests := minute ++ [now],
          daily_requests := daily ++ [now] },
      error := none,
      slept := slept }

/-- Quota snapshot returned by `get_remaining_quota` (estate.py lines 77-82).
Python `int` subtraction may go negative, hence `Int` for the remainders. -/
structure Quota where
  minute_remaining : Int
  daily_remaining : Int
  minute_used : Nat
  daily_used : Nat
deriving Repr, DecidableEq

/-- `RateLimiter.get_remaining_quota` (estate.py lines 63-82): prunes both
windows (a mutation, hence the returned state) and derives the four counts. -/
def RateLimiter.get_remaining_quota (rl : RateLimiter) (now : Int) :
    RateLimiter × Quota :=
  let minute := prune (now - 60) rl.minute_requests
  let daily := prune (now - 86400) rl.daily_requests
  ({ rl with minute_requests := minute, daily_requests := daily },
   { minute_remaining := (rl.requests_per_minute : Int) - minute.length,
     daily_remaining := (rl.requests_per_day : Int) - daily.length,
     minute_used := minute.length,
     daily_used := daily.length })

/-- Sequential synthetic-clock driver: a single caller issues one permit
acquisition per listed delay, each call entering `wait_if_needed` the given
number of seconds after the previous grant completed.  Returns the governor
state and completion (grant) time after every successful acquisition; a
daily-limit exception aborts the sequence. -/
def runStates : RateLimiter → Int → List Int → List (RateLimiter × Int)
  | _, _, [] => []
  | rl, now, d :: ds =>
    let t := now + d
    let w := rl.wait_if_needed t
    match w.error with
    | some _ => []
    | none => (w.state, t + w.slept) :: runStates w.state (t + w.slept) ds

/-- Completion (grant) times of the acquisitions of a sequential run. -/
def grantTimes (rl : RateLimiter) (now : Int) (ds : List Int) : List Int :=
  (runStates rl now ds).map Prod.snd

/-- Number of grants completing in the sliding 60-second window `(a, a + 60]`. -/
def grantsInWindow (grants : List Int) (a : Int) : Nat :=
  (grants.filter (fun g => decide (a < g) && decide (g ≤ a + 60))).length

/-- One scripted HTTP response from the chat-completion endpoint: a 200 with
extracted text, or a non-200 status with its body text. -/
inductive Response
  | ok (text : String)
  | status (code : Nat) (body : String)
deriving Repr, DecidableEq

/-- Outcome of one `query_groq` call: governor state, clock value when the
call returned, the returned text, and the number of HTTP attempts issued. -/
structure GroqResult where
  state : RateLimiter
  time : Int
  text : String
  attempts : Nat
deriving Repr, DecidableEq

/-- `SriLankaTourismAgent.query_groq` (estate.py lines 122-168) over a script
of responses, one per HTTP attempt.  It acquires a permit (`wait_if_needed`),
logs the quota (`get_remaining_quota`, which prunes), then issues the request:
a 200 returns the text; a 429 sleeps 60 seconds and re-invokes the whole
function on the rest of the script (estate.py line 161); any other status
returns its error text.  The daily-limit exception from `wait_if_needed` is
caught by the blanket `except` and returned as an error string (line 168). -/
def query_groq : RateLimiter → Int → List Response → GroqResult
  | rl, now, script =>
    let w := rl.wait_if_needed now
    match w.error with
    | some msg => { state := w.state, time := now, text := "Error: " ++ msg, attempts := 0 }
    | none =>
      let t := now + w.slept
      let rl2 := (w.state.get_remaining_quota t).1
      match script with
      | [] => { state := rl2, time := t, text := "Error: no scripted response", attempts := 1 }
      | Response.ok text :: _ =>
        { state := rl2, time := t, text := text, attempts := 1 }
      | Response.status code body :: rest =>
        if code = 429 then
          let r := query_groq rl2 (t + 60) rest
          { r with attempts := r.attempts + 1 }
        else
          { state := rl2, time := t,
            text := "Error: " ++ toString code ++ " - " ++ body, attempts := 1 }

/-- `self.known_hotspots` (estate.py lines 116-120). -/
def known_hotspots : List String :=
  ["Ella", "Kandy", "Sigiriya", "Arugam Bay", "Negombo",
   "Galle", "Nuwara Eliya", "Anuradhapura", "Mirissa",
   "Unawatuna", "Trincomalee", "Polonnaruwa"]

/-- Location selection of `run_comprehensive_analysis` (estate.py lines
385-387): use `custom_locations` when truthy (present and nonempty), else the
known hotspots, then truncate to `max_locations`. -/
def planLocations (custom_locations : Option (List String)) (max_locations : Nat) :
    List String :=
  let locations :=
    match custom_locations with
    | some l => if l.isEmpty then known_hotspots.take max_locations else l
    | none => known_hotspots.take max_locations
  locations.take max_locations

/-- Pre-flight estimate `3 + len(locations) + 2` (estate.py line 393). -/
def estimatedRequests (custom_locations : Option (List String)) (max_locations : Nat) :
    Nat :=
  3 + (planLocations custom_locations max_locations).length + 2

/-- Sequential execution of the plan's calls (estate.py lines 408-432): each
plan step is one `query_groq` call; its result text is recorded in the
results structure and the plan proceeds to the next step.  The per-call
response scripts are consumed one per step. -/
def runPlanCalls : RateLimiter → Int → Nat → List (List Response) →
    RateLimiter × Int × List String
  | rl, now, 0, _ => (rl, now, [])
  | rl, now, n + 1, scripts =>
    let r := query_groq rl now (scripts.headD [Response.ok "ok"])
    let rest := runPlanCalls r.state r.time n scripts.tail
    (rest.1, rest.2.1, r.text :: rest.2.2)

/-- Number of `query_groq` calls a plan over `locations` actually issues
(estate.py lines 408-432): trends, market report, one per location,
comparison, and competition for the top location when one exists. -/
def planCallCount (locations : List String) : Nat :=
  2 + locations.length + 1 + (if locations.isEmpty then 0 else 1)

/-- Outcome of `run_comprehensive_analysis`: governor state, final clock
value, the pre-flight quota exception if raised, and the recorded result
text of every call the plan executed. -/
structure PlanResult where
  state : RateLimiter
  time : Int
  aborted : Option String
  step_results : List String
deriving Repr, DecidableEq

/-- `SriLankaTourismAgent.run_comprehensive_analysis` (estate.py lines
379-446), restricted to its governor interaction: select locations, take a
quota snapshot, raise before issuing any call when
`daily_remaining < estimated_requests` (lines 391-396), otherwise run every
plan step sequentially, recording each call's result text. -/
def run_comprehensive_analysis (rl : RateLimiter) (now : Int)
    (custom_locations : Option (List String)) (max_locations : Nat)
    (scripts : List (List Response)) : PlanResult :=
  let locations := planLocations custom_locations max_locations
  let q := rl.get_remaining_quota now
  let estimated := 3 + locations.length + 2
  if q.2.daily_remaining < (estimated : Int) then
    { state := q.1, time := now,
      aborted := some ("Insufficient daily API quota. Need ~" ++ toString estimated ++
        " requests, have " ++ toString q.2.daily_remaining ++ " remaining."),
      step_results := [] }
  else
    let r := runPlanCalls q.1 now (planCallCount locations) scripts
    { state := r.1, time := r.2.1, aborted := none, step_results := r.2.2 }

/-- Events of `wait_if_needed`'s control flow, used to model which
statements execute while `self.lock` is held (estate.py lines 32-61:
the entire body, sleep included, sits inside `with self.lock:`). -/
inductive LockEvent
  | acquire
  | pruneWindows
  | raiseDailyError
  | sleepHoldingLock (d : Int)
  | recordRequest
  | release
deriving Repr, DecidableEq

/-- Control-flow trace of one `wait_if_needed` call (estate.py lines 30-61):
the lock is acquired on entering the `with` block and released on leaving it
(also on the exception path); pruning, the daily check, the sleep and the
append all happen in between. -/
def wait_trace (rl : RateLimiter) (now : Int) : List LockEvent :=
  let minute := prune (now - 60) rl.minute_requests
  let daily := prune (now - 86400) rl.daily_requests
  LockEvent.acquire :: LockEvent.pruneWindows ::
    (if rl.requests_per_day ≤ daily.length then
      [LockEvent.raiseDailyError, LockEvent.release]
    else
      (if rl.requests_per_minute ≤ minute.length then
        let waitTime := minute.headD 0 + 61 - now
        if 0 < waitTime then [LockEvent.sleepHoldingLock waitTime] else []
      else []) ++ [LockEvent.recordRequest, LockEvent.release])

/-- Pruning drops only a front segment, so the surviving head is at or past
the cutoff. -/
theorem prune_head_le : ∀ {l : List Int} {c a : Int} {rest : List Int},
    prune c l = a :: rest → c ≤ a := by
  intro l
  induction l with
  | nil => intro c a rest h; simp [prune] at h
  | cons x xs ih =>
    intro c a rest h
    by_cases hx : x < c
    · exact ih (by simpa [prune, List.dropWhile_cons, hx] using h)
    · simp [prune, List.dropWhile_cons, hx] at h
      omega

/-- Pruning never lengthens a window. -/
theorem prune_length_le (c : Int) (l : List Int) : (prune c l).length ≤ l.length := by
  induction l with
  | nil => simp [prune]
  | cons x xs ih =>
    by_cases hx : x < c
    · simp only [prune] at ih ⊢
      simp only [List.dropWhile_cons, hx, decide_True, if_true, List.length_cons]
      exact Nat.le_succ_of_le ih
    · simp [prune, List.dropWhile_cons, hx]

/-- Pruning at a later cutoff keeps at most as many entries. -/
theorem prune_mono {c c' : Int} (hcc : c ≤ c') (l : List Int) :
    (prune c' l).length ≤ (prune c l).length := by
  induction l with
  | nil => simp [prune]
  | cons x xs ih =>
    by_cases hx : x < c
    · have hx' : x < c' := lt_of_lt_of_le hx hcc
      simpa [prune, List.dropWhile_cons, hx, hx'] using ih
    · have h1 := prune_length_le c' (x :: xs)
      simp only [prune, List.dropWhile_cons, hx] at h1 ⊢
      simpa using h1

/-- Pruning empties a window all of whose entries lie strictly before the
cutoff. -/
theorem prune_all_lt {c : Int} {l : List Int} (h : ∀ x ∈ l, x < c) :
    prune c l = [] := by
  simpa [prune, List.dropWhile_eq_nil_iff] using h

/-- An entry at or past the cutoff survives pruning. -/
theorem mem_prune {c a : Int} {l : List Int} (ha : a ∈ l) (hc : ¬ a < c) :
    a ∈ prune c l := by
  induction l with
  | nil => simp at ha
  | cons x xs ih =>
    by_cases hx : x < c
    · have hax : a ≠ x := by intro h; exact hc (h ▸ hx)
      have : a ∈ xs := by
        rcases List.mem_cons.mp ha with h | h
        · exact absurd h hax
        · exact h
      simpa [prune, List.dropWhile_cons, hx] using ih this
    · simpa [prune, List.dropWhile_cons, hx] using ha

/-- Appending a fresh entry at or past the cutoff to an already-pruned window
leaves nothing to prune. -/
theorem prune_append_self {c x : Int} (l : List Int) (hx : ¬ x < c) :
    prune c (prune c l ++ [x]) = prune c l ++ [x] := by
  cases h : prune c l with
  | nil => simp [prune, List.dropWhile_cons, hx]
  | cons a rest =>
    have ha : ¬ a < c := not_lt.mpr (prune_head_le h)
    simp [prune, List.dropWhile_cons, ha]

/-- Pruning an already-pruned window changes nothing. -/
theorem prune_prune (c : Int) (l : List Int) : prune c (prune c l) = prune c l := by
  simp [prune, List.dropWhile_idempotent]

/-- Quota limits are construction-time constants: `wait_if_needed` never
changes them. -/
theorem wait_limits (rl : RateLimiter) (now : Int) :
    (rl.wait_if_needed now).state.requests_per_minute = rl.requests_per_minute ∧
    (rl.wait_if_needed now).state.requests_per_day = rl.requests_per_day := by
  by_cases hd : rl.requests_per_day ≤ (prune (now - 86400) rl.daily_requests).length <;>
    simp [RateLimiter.wait_if_needed, hd]

/-- Minute-window preservation: if the minute window held at most
`requests_per_minute` unexpired entries when `wait_if_needed` was entered,
it holds at most `requests_per_minute` unexpired entries at the moment the
call returns (the grant time `now + slept`). -/
theorem wait_step_minute {rl : RateLimiter} {now : Int}
    (hrpm : 1 ≤ rl.requests_per_minute)
    (hinv : (prune (now - 60) rl.minute_requests).length ≤ rl.requests_per_minute) :
    (prune (now + (rl.wait_if_needed now).slept - 60)
        (rl.wait_if_needed now).state.minute_requests).length ≤
      rl.requests_per_minute := by
  unfold RateLimiter.wait_if_needed
  by_cases hd : rl.requests_per_day ≤ (prune (now - 86400) rl.daily_requests).length
  · simp only [hd, if_true]
    simpa [prune_prune] using hinv
  · simp only [hd, if_false]
    by_cases hm : rl.requests_per_minute ≤ (prune (now - 60) rl.minute_requests).length
    · obtain ⟨a, rest, hpm⟩ :
          ∃ a rest, prune (now - 60) rl.minute_requests = a :: rest := by
        cases h : prune (now - 60) rl.minute_requests with
        | nil => rw [h] at hm; simp at hm; omega
        | cons a rest => exact ⟨a, rest, rfl⟩
      rw [hpm] at hinv hm ⊢
      have hca : now - 60 ≤ a := prune_head_le hpm
      have hw : 0 < a + 61 - now := by omega
      rw [if_pos hm]
      simp only [List.headD_cons]
      rw [if_pos hw]
      have e1 : now + (a + 61 - now) - 60 = a + 1 := by ring
      rw [e1]
      have e2 : prune (a + 1) (a :: rest ++ [now]) = prune (a + 1) (rest ++ [now]) := by
        simp [prune, List.dropWhile_cons, show a < a + 1 by omega]
      rw [e2]
      have h3 := prune_length_le (a + 1) (rest ++ [now])
      simp only [List.length_append, List.length_cons, List.length_nil] at h3 hinv ⊢
      omega
    · rw [if_neg hm]
      have hx : ¬ (now : Int) < now - 60 := by omega
      rw [show now + 0 - 60 = now - 60 by ring, prune_append_self _ hx]
      simp only [List.length_append, List.length_cons, List.length_nil]
      omega

/-- Day-window preservation: after any successful `wait_if_needed`, the day
window holds at most `requests_per_day` unexpired entries at the grant time
(the daily check admitted strictly fewer than `requests_per_day`, and one
entry was appended). -/
theorem wait_step_daily {rl : RateLimiter} {now : Int}
    (hok : (rl.wait_if_needed now).error = none) :
    (prune (now + (rl.wait_if_needed now).slept - 86400)
        (rl.wait_if_needed now).state.daily_requests).length ≤
      rl.requests_per_day := by
  unfold RateLimiter.wait_if_needed at *
  by_cases hd : rl.requests_per_day ≤ (prune (now - 86400) rl.daily_requests).length
  · simp [hd] at hok
  · simp only [hd, if_false]
    refine le_trans (prune_length_le _ _) ?_
    simp only [List.length_append, List.length_cons, List.length_nil]
    omega

/-- Every state along a sequential run keeps the construction-time limits. -/
theorem runStates_limits : ∀ (ds : List Int) (rl : RateLimiter) (now : Int),
    ∀ p ∈ runStates rl now ds,
      p.1.requests_per_minute = rl.requests_per_minute ∧
      p.1.requests_per_day = rl.requests_per_day := by
  intro ds
  induction ds with
  | nil => intro rl now p hp; simp [runStates] at hp
  | cons d ds ih =>
    intro rl now p hp
    simp only [runStates] at hp
    cases he : (rl.wait_if_needed (now + d)).error with
    | some msg => rw [he] at hp; simp at hp
    | none =>
      rw [he] at hp
      simp only [List.mem_cons] at hp
      have hlim := wait_limits rl (now + d)
      rcases hp with h | h
      · rw [h]
        exact hlim
      · have := ih (rl.wait_if_needed (now + d)).state
          (now + d + (rl.wait_if_needed (now + d)).slept) p h
        exact ⟨this.1.trans hlim.1, this.2.trans hlim.2⟩

/-- Window invariant along a whole sequential run: after every grant, both
windows hold at most their limit's worth of unexpired entries (pruned at the
grant time). -/
theorem runStates_invariant : ∀ (ds : List Int) (rl : RateLimiter) (now : Int),
    1 ≤ rl.requests_per_minute →
    (prune (now - 60) rl.minute_requests).length ≤ rl.requests_per_minute →
    (∀ d ∈ ds, 0 ≤ d) →
    ∀ p ∈ runStates rl now ds,
      (prune (p.2 - 60) p.1.minute_requests).length ≤ p.1.requests_per_minute ∧
      (prune (p.2 - 86400) p.1.daily_requests).length ≤ p.1.requests_per_day := by
  intro ds
  induction ds with
  | nil => intro rl now _ _ _ p hp; simp [runStates] at hp
  | cons d ds ih =>
    intro rl now hrpm hinv hds p hp
    simp only [runStates] at hp
    cases he : (rl.wait_if_needed (now + d)).error with
    | some msg => rw [he] at hp; simp at hp
    | none =>
      rw [he] at hp
      simp only [List.mem_cons] at hp
      have hd0 : (0 : Int) ≤ d := hds d (by simp)
      have hinv' : (prune (now + d - 60) rl.minute_requests).length ≤
          rl.requests_per_minute :=
        le_trans (prune_mono (by omega) _) hinv
      have hmin := @wait_step_minute rl (now + d) hrpm hinv'
      have hday := @wait_step_daily rl (now + d) he
      have hlim := wait_limits rl (now + d)
      rcases hp with h | h
      · rw [h]
        exact ⟨hlim.1 ▸ hmin, hlim.2 ▸ hday⟩
      · have hrpm' : 1 ≤ (rl.wait_if_needed (now + d)).state.requests_per_minute :=
          hlim.1 ▸ hrpm
        have hinv'' :
            (prune (now + d + (rl.wait_if_needed (now + d)).slept - 60)
              (rl.wait_if_needed (now + d)).state.minute_requests).length ≤
            (rl.wait_if_needed (now + d)).state.requests_per_minute := hlim.1 ▸ hmin
        exact ih (rl.wait_if_needed (now + d)).state
          (now + d + (rl.wait_if_needed (now + d)).slept) hrpm' hinv''
          (fun x hx => hds x (List.mem_cons_of_mem _ hx)) p h

/-- Claim C1 (code bug, demonstrated at the failing input): with
`requests_per_minute = 1` and three back-to-back acquisitions from synthetic
time 0, the governor completes the acquisitions at times 0, 61 and 61 — the
second and third grants both complete at t = 61, so 2 = m + 1 acquisitions
complete inside one sliding 60-second window.  The cause: `wait_if_needed`
appends the clock value captured before the sleep, so a waiter's recorded
entry is already expired when its grant completes. -/
theorem claim_C1_minute_cap_violated :
    grantTimes (RateLimiter.init 1 10) 0 [0, 0, 0] = [0, 61, 61] ∧
    grantsInWindow (grantTimes (RateLimiter.init 1 10) 0 [0, 0, 0]) 1 = 2 ∧
    1 + 1 ≤ grantsInWindow (grantTimes (RateLimiter.init 1 10) 0 [0, 0, 0]) 1 := by
  decide

/-- Claim C2: whenever the pruned day window already holds at least
`requests_per_day` entries, `wait_if_needed` raises the quota-exhausted
error with zero seconds slept — the daily check precedes the per-minute
check, so daily exhaustion never blocks, whatever the minute window holds. -/
theorem claim_C2_daily_exhaustion_fails_fast (rl : RateLimiter) (now : Int)
    (h : rl.requests_per_day ≤ (prune (now - 86400) rl.daily_requests).length) :
    (rl.wait_if_needed now).error = some (dailyLimitMsg rl.requests_per_day) ∧
    (rl.wait_if_needed now).slept = 0 := by
  simp [RateLimiter.wait_if_needed, h]

/-- Witness for C2: a governor with `requests_per_day = 1`, one day-window
entry, and a full minute window still fails immediately without sleeping. -/
theorem claim_C2_daily_exhaustion_fails_fast_witness :
    ((RateLimiter.mk 1 1 [0] [0]).wait_if_needed 0).error = some (dailyLimitMsg 1) ∧
    ((RateLimiter.mk 1 1 [0] [0]).wait_if_needed 0).slept = 0 :=
  claim_C2_daily_exhaustion_fails_fast (RateLimiter.mk 1 1 [0] [0]) 0 (by decide)

/-- Claim C3 (code bug, demonstrated at the failing input): on the response
script 429, 429, 200 the code performs a second retry — three HTTP attempts —
and returns the third attempt's text, where the claim (and the source's own
`Retry once` comment, estate.py line 161) says the call retries exactly once
and then returns that retry's result. -/
theorem claim_C3_second_retry_performed :
    (query_groq (RateLimiter.init 25 100) 0
      [Response.status 429 "Too Many Requests", Response.status 429 "Too Many Requests",
       Response.ok "final answer"]).attempts = 3 ∧
    (query_groq (RateLimiter.init 25 100) 0
      [Response.status 429 "Too Many Requests", Response.status 429 "Too Many Requests",
       Response.ok "final answer"]).text = "final answer" := by
  decide

/-- Claim C6: when the daily cap is not reached and the pruned minute window
`a :: rest` is at capacity, `wait_if_needed` grants the permit after sleeping
exactly `(oldest + 1 minute + 1 second) - now` seconds; that duration is
always positive (at least 1, since the pruned oldest entry is younger than
60 seconds), and on resumption the oldest entry is strictly older than one
minute, hence expired. -/
theorem claim_C6_wait_duration (rl : RateLimiter) (now a : Int) (rest : List Int)
    (hday : (prune (now - 86400) rl.daily_requests).length < rl.requests_per_day)
    (hmin : prune (now - 60) rl.minute_requests = a :: rest)
    (hfull : rl.requests_per_minute ≤ (a :: rest).length) :
    (rl.wait_if_needed now).error = none ∧
    (rl.wait_if_needed now).slept = a + 61 - now ∧
    1 ≤ (rl.wait_if_needed now).slept ∧
    a < now + (rl.wait_if_needed now).slept - 60 := by
  have hday' : ¬ rl.requests_per_day ≤ (prune (now - 86400) rl.daily_requests).length :=
    not_le.mpr hday
  have hca : now - 60 ≤ a := prune_head_le hmin
  have hw : 0 < a + 61 - now := by omega
  simp only [RateLimiter.wait_if_needed, hmin, hday', if_false, hfull, if_true,
    List.headD_cons, hw]
  refine ⟨trivial, trivial, by omega, by omega⟩

/-- Witness for C6: `requests_per_minute = 2`, minute window `[0, 0]`,
call at t = 0: the caller sleeps exactly 61 seconds. -/
theorem claim_C6_wait_duration_witness :
    ((RateLimiter.mk 2 10 [0, 0] [0, 0]).wait_if_needed 0).error = none ∧
    ((RateLimiter.mk 2 10 [0, 0] [0, 0]).wait_if_needed 0).slept = 0 + 61 - 0 ∧
    1 ≤ ((RateLimiter.mk 2 10 [0, 0] [0, 0]).wait_if_needed 0).slept ∧
    (0 : Int) < 0 + ((RateLimiter.mk 2 10 [0, 0] [0, 0]).wait_if_needed 0).slept - 60 :=
  claim_C6_wait_duration (RateLimiter.mk 2 10 [0, 0] [0, 0]) 0 0 [0]
    (by decide) (by decide) (by decide)

/-- Claim C7: along any sequential run of acquisitions on a fresh governor
(non-negative inter-call delays, synthetic clock), immediately after every
grant the snapshot's `minute_used` equals the count of the pruned minute
window and stays at most `requests_per_minute`, and `daily_used` stays at
most `requests_per_day` (the daily cap being enforced by failure, a grant is
only ever recorded below it). -/
theorem claim_C7_window_invariants (rpm rpd : Nat) (now : Int) (ds : List Int)
    (hrpm : 1 ≤ rpm) (hds : ∀ d ∈ ds, 0 ≤ d) :
    ∀ p ∈ runStates (RateLimiter.init rpm rpd) now ds,
      (p.1.get_remaining_quota p.2).2.minute_used =
        (prune (p.2 - 60) p.1.minute_requests).length ∧
      (p.1.get_remaining_quota p.2).2.minute_used ≤ rpm ∧
      (p.1.get_remaining_quota p.2).2.daily_used ≤ rpd := by
  intro p hp
  have hlim := runStates_limits ds (RateLimiter.init rpm rpd) now p hp
  have hinv := runStates_invariant ds (RateLimiter.init rpm rpd) now hrpm
    (by simp [RateLimiter.init, prune]) hds p hp
  have h1 : p.1.requests_per_minute = rpm := hlim.1
  have h2 : p.1.requests_per_day = rpd := hlim.2
  exact ⟨rfl, le_of_le_of_eq hinv.1 h1, le_of_le_of_eq hinv.2 h2⟩

/-- Entries surviving a prune were in the original window. -/
theorem mem_of_mem_prune {c x : Int} {l : List Int} (h : x ∈ prune c l) : x ∈ l :=
  (List.dropWhile_sublist _).mem h

/-- Claim C4 counterexample: with `requests_per_day = 6` and a plan over one
location (pre-flight estimate 6 = remaining quota), three server 429 retries
inside the first call consume extra daily permits, so the daily cap is hit
at the plan's fourth step — yet the fifth step is still issued: the
quota-exhausted exception is swallowed by `query_groq`'s blanket `except`
(estate.py line 166) and recorded as the step's error text, and the plan
continues instead of stopping. -/
theorem claim_C4_counterexample :
    (run_comprehensive_analysis (RateLimiter.init 25 6) 0 (some ["Ella"]) 1
      [[Response.status 429 "Too Many Requests", Response.status 429 "Too Many Requests",
        Response.status 429 "Too Many Requests", Response.ok "trends"],
       [Response.ok "report"], [Response.ok "ella"], [Response.ok "comparison"],
       [Response.ok "competition"]]).step_results =
      ["trends", "report", "ella",
       "Error: Daily API limit reached (6 requests). Please try again tomorrow.",
       "Error: Daily API limit reached (6 requests). Please try again tomorrow."] ∧
    (run_comprehensive_analysis (RateLimiter.init 25 6) 0 (some ["Ella"]) 1
      [[Response.status 429 "Too Many Requests", Response.status 429 "Too Many Requests",
        Response.status 429 "Too Many Requests", Response.ok "trends"],
       [Response.ok "report"], [Response.ok "ella"], [Response.ok "comparison"],
       [Response.ok "competition"]]).step_results.length = 5 := by
  decide

/-- Claim C4 as amended: the quota-exhausted error is indeed the only error
the governor raises, but it is not fatal to an in-progress plan — every
planned step executes and records a result text regardless of errors in
earlier steps, because `query_groq` converts the exception into the step's
result string. -/
theorem claim_C4_amended :
    (∀ (rl : RateLimiter) (now : Int),
      (rl.wait_if_needed now).error = none ∨
      (rl.wait_if_needed now).error = some (dailyLimitMsg rl.requests_per_day)) ∧
    (∀ (n : Nat) (rl : RateLimiter) (now : Int) (scripts : List (List Response)),
      (runPlanCalls rl now n scripts).2.2.length = n) := by
  constructor
  · intro rl now
    by_cases hd : rl.requests_per_day ≤ (prune (now - 86400) rl.daily_requests).length
    · right; simp [RateLimiter.wait_if_needed, hd]
    · left; simp [RateLimiter.wait_if_needed, hd]
  · intro n
    induction n with
    | zero => intro rl now scripts; simp [runPlanCalls]
    | succ n ih =>
      intro rl now scripts
      simp [runPlanCalls, ih]

/-- Claim C5: whenever the snapshot taken at the start of
`run_comprehensive_analysis` shows fewer remaining daily requests than the
plan's estimate, the plan aborts with the shortfall message before issuing
any call — zero steps execute. -/
theorem claim_C5_preflight_abort (rl : RateLimiter) (now : Int)
    (custom : Option (List String)) (maxloc : Nat) (scripts : List (List Response))
    (h : (rl.get_remaining_quota now).2.daily_remaining <
      (estimatedRequests custom maxloc : Int)) :
    (run_comprehensive_analysis rl now custom maxloc scripts).aborted =
      some ("Insufficient daily API quota. Need ~" ++
        toString (estimatedRequests custom maxloc) ++ " requests, have " ++
        toString (rl.get_remaining_quota now).2.daily_remaining ++ " remaining.") ∧
    (run_comprehensive_analysis rl now custom maxloc scripts).step_results = [] := by
  unfold estimatedRequests at h ⊢
  simp only [run_comprehensive_analysis, h, if_true]
  exact ⟨trivial, trivial⟩

/-- Witness for C5: `requests_per_day = 10` with 7 requests used today leaves
`daily_remaining = 3`, below the estimate of 5 for an empty location list:
the plan aborts with the shortfall message and executes nothing. -/
theorem claim_C5_preflight_abort_witness :
    (run_comprehensive_analysis (RateLimiter.mk 25 10 [] [0, 0, 0, 0, 0, 0, 0]) 0
        (some []) 0 []).aborted =
      some ("Insufficient daily API quota. Need ~" ++
        toString (estimatedRequests (some []) 0) ++ " requests, have " ++
        toString (((RateLimiter.mk 25 10 [] [0, 0, 0, 0, 0, 0, 0]).get_remaining_quota
          0).2.daily_remaining) ++ " remaining.") ∧
    (run_comprehensive_analysis (RateLimiter.mk 25 10 [] [0, 0, 0, 0, 0, 0, 0]) 0
        (some []) 0 []).step_results = [] :=
  claim_C5_preflight_abort (RateLimiter.mk 25 10 [] [0, 0, 0, 0, 0, 0, 0]) 0
    (some []) 0 [] (by decide)

/-- Witness for C7: the second grant of the run `rpm = 1, rpd = 5`, three
back-to-back calls from t = 0, checked at its grant time 61. -/
theorem claim_C7_window_invariants_witness :
    ((RateLimiter.mk 1 5 [0, 0] [0, 0]).get_remaining_quota 61).2.minute_used =
      (prune (61 - 60) (RateLimiter.mk 1 5 [0, 0] [0, 0]).minute_requests).length ∧
    ((RateLimiter.mk 1 5 [0, 0] [0, 0]).get_remaining_quota 61).2.minute_used ≤ 1 ∧
    ((RateLimiter.mk 1 5 [0, 0] [0, 0]).get_remaining_quota 61).2.daily_used ≤ 5 :=
  claim_C7_window_invariants 1 5 0 [0, 0, 0] (by decide) (by decide)
    (RateLimiter.mk 1 5 [0, 0] [0, 0], (61 : Int)) (by decide)

/-- Claim C8: an acquisition recorded at time T (on a history whose entries
are all at most T) is no longer counted by `minute_used` in a snapshot at
T + 61 seconds, but still sits in the pruned day window — and so counts
toward `daily_used` — in a snapshot at T + 23 hours; and a snapshot on a
fresh governor reports zero usage and full remaining quotas. -/
theorem claim_C8_pruning_and_fresh_snapshot :
    (∀ (rl : RateLimiter) (T : Int),
      (∀ x ∈ rl.minute_requests, x ≤ T) →
      (∀ x ∈ rl.daily_requests, x ≤ T) →
      (rl.wait_if_needed T).error = none →
      ((rl.wait_if_needed T).state.get_remaining_quota (T + 61)).2.minute_used = 0 ∧
      T ∈ prune (T + 82800 - 86400) (rl.wait_if_needed T).state.daily_requests ∧
      1 ≤ ((rl.wait_if_needed T).state.get_remaining_quota (T + 82800)).2.daily_used) ∧
    (∀ (rpm rpd : Nat) (now : Int),
      ((RateLimiter.init rpm rpd).get_remaining_quota now).2 =
        { minute_remaining := (rpm : Int), daily_remaining := (rpd : Int),
          minute_used := 0, daily_used := 0 }) := by
  constructor
  · intro rl T hmle hdle hok
    by_cases hd : rl.requests_per_day ≤ (prune (T - 86400) rl.daily_requests).length
    · simp [RateLimiter.wait_if_needed, hd] at hok
    · simp only [RateLimiter.wait_if_needed, hd, if_false,
        RateLimiter.get_remaining_quota]
      have hmem : T ∈ prune (T - 86400) rl.daily_requests ++ [T] :=
        List.mem_append_right _ (List.mem_singleton.mpr rfl)
      have hTm : T ∈ prune (T + 82800 - 86400) (prune (T - 86400) rl.daily_requests ++ [T]) :=
        mem_prune hmem (by omega)
      refine ⟨?_, hTm, ?_⟩
      · have hall : ∀ x ∈ prune (T - 60) rl.minute_requests ++ [T], x < T + 61 - 60 := by
          intro x hx
          rcases List.mem_append.mp hx with hx | hx
          · have := hmle x (mem_of_mem_prune hx)
            omega
          · have : x = T := List.mem_singleton.mp hx
            omega
        rw [prune_all_lt hall]
        rfl
      · exact List.length_pos_of_mem hTm
  · intro rpm rpd now
    simp [RateLimiter.init, RateLimiter.get_remaining_quota, prune]

/-- Witness for C8: a governor holding one acquisition at time 0 acquires
again at T = 0; the recorded entry is invisible to `minute_used` at t = 61
and still counted by `daily_used` at t = 82800 (23 hours). -/
theorem claim_C8_pruning_and_fresh_snapshot_witness :
    (((RateLimiter.mk 2 10 [0] [0]).wait_if_needed 0).state.get_remaining_quota
        (0 + 61)).2.minute_used = 0 ∧
    (0 : Int) ∈ prune (0 + 82800 - 86400)
      ((RateLimiter.mk 2 10 [0] [0]).wait_if_needed 0).state.daily_requests ∧
    1 ≤ (((RateLimiter.mk 2 10 [0] [0]).wait_if_needed 0).state.get_remaining_quota
        (0 + 82800)).2.daily_used :=
  claim_C8_pruning_and_fresh_snapshot.1 (RateLimiter.mk 2 10 [0] [0]) 0
    (by decide) (by decide) (by decide)

/-- Claim C9 counterexample: the `wait_if_needed` trace for a full minute
window sleeps strictly between acquiring and releasing the lock — the
Python `time.sleep` at estate.py line 57 sits inside `with self.lock:`
(line 32), so the suspension holds the governor's lock and a concurrent
`get_remaining_quota`, which needs the same lock (line 65), blocks until
the in-progress wait completes, contrary to the claim. -/
theorem claim_C9_counterexample :
    wait_trace (RateLimiter.mk 1 10 [0] [0]) 0 =
      [LockEvent.acquire, LockEvent.pruneWindows, LockEvent.sleepHoldingLock 61,
       LockEvent.recordRequest, LockEvent.release] ∧
    LockEvent.sleepHoldingLock 61 ∈
      ((wait_trace (RateLimiter.mk 1 10 [0] [0]) 0).dropLast).tail := by
  decide

/-- Claim C9 as amended: the per-minute suspension happens while holding the
governor's lock — every `wait_if_needed` trace acquires the lock first,
releases it last, and keeps any sleep event strictly in between — so a
concurrent quota snapshot blocks (for the bounded wait duration) behind an
in-progress wait rather than proceeding mid-wait. -/
theorem claim_C9_amended (rl : RateLimiter) (now : Int) :
    ∃ mid, wait_trace rl now = LockEvent.acquire :: mid ++ [LockEvent.release] ∧
      ∀ d : Int, LockEvent.sleepHoldingLock d ∈ wait_trace rl now →
        LockEvent.sleepHoldingLock d ∈ mid := by
  by_cases hd : rl.requests_per_day ≤ (prune (now - 86400) rl.daily_requests).length
  · refine ⟨[LockEvent.pruneWindows, LockEvent.raiseDailyError], ?_, ?_⟩
    · simp only [wait_trace]
      rw [if_pos hd]
      rfl
    · intro d hdm
      simp only [wait_trace] at hdm
      rw [if_pos hd] at hdm
      simp at hdm
  · by_cases hm : rl.requests_per_minute ≤ (prune (now - 60) rl.minute_requests).length
    · by_cases hw : 0 < (prune (now - 60) rl.minute_requests).headD 0 + 61 - now
      · refine ⟨[LockEvent.pruneWindows,
          LockEvent.sleepHoldingLock
            ((prune (now - 60) rl.minute_requests).headD 0 + 61 - now),
          LockEvent.recordRequest], ?_, ?_⟩
        · simp only [wait_trace]
          rw [if_neg hd, if_pos hm, if_pos hw]
          rfl
        · intro d hdm
          simp only [wait_trace] at hdm
          rw [if_neg hd, if_pos hm, if_pos hw] at hdm
          simp at hdm
          simp [hdm]
      · refine ⟨[LockEvent.pruneWindows, LockEvent.recordRequest], ?_, ?_⟩
        · simp only [wait_trace]
          rw [if_neg hd, if_pos hm, if_neg hw]
          rfl
        · intro d hdm
          simp only [wait_trace] at hdm
          rw [if_neg hd, if_pos hm, if_neg hw] at hdm
          simp at hdm
    · refine ⟨[LockEvent.pruneWindows, LockEvent.recordRequest], ?_, ?_⟩
      · simp only [wait_trace]
        rw [if_neg hd, if_neg hm]
        rfl
      · intro d hdm
        simp only [wait_trace] at hdm
        rw [if_neg hd, if_neg hm] at hdm
        simp at hdm

/-- Witness for C9 (amended): instantiated at the blocking scenario of the
counterexample. -/
theorem claim_C9_amended_witness :
    ∃ mid, wait_trace (RateLimiter.mk 1 10 [0] [0]) 0 =
        LockEvent.acquire :: mid ++ [LockEvent.release] ∧
      ∀ d : Int, LockEvent.sleepHoldingLock d ∈ wait_trace (RateLimiter.mk 1 10 [0] [0]) 0 →
        LockEvent.sleepHoldingLock d ∈ mid :=
  claim_C9_amended (RateLimiter.mk 1 10 [0] [0]) 0

/-- Claim C10: a successful `wait_if_needed` appends to both windows the
clock value captured at entry (`now`), not the post-sleep grant time — and a
grant that waited therefore records an entry that is already `slept` seconds
old, which can be expired the moment the permit is granted: with
`requests_per_minute = 1` and minute window `[0]`, the call entered at t = 0
sleeps 61 seconds yet records timestamp 0, which the grant-time snapshot has
already pruned. -/
theorem claim_C10_entry_time_recorded :
    (∀ (rl : RateLimiter) (now : Int),
      (rl.wait_if_needed now).error = none →
      (rl.wait_if_needed now).state.minute_requests.getLast? = some now ∧
      (rl.wait_if_needed now).state.daily_requests.getLast? = some now) ∧
    (((RateLimiter.mk 1 10 [0] [0]).wait_if_needed 0).slept = 61 ∧
     ((((RateLimiter.mk 1 10 [0] [0]).wait_if_needed 0).state.get_remaining_quota
        (0 + ((RateLimiter.mk 1 10 [0] [0]).wait_if_needed 0).slept)).2.minute_used = 0)) := by
  constructor
  · intro rl now hok
    by_cases hd : rl.requests_per_day ≤ (prune (now - 86400) rl.daily_requests).length
    · simp [RateLimiter.wait_if_needed, hd] at hok
    · simp [RateLimiter.wait_if_needed, hd, List.getLast?_concat]
  · decide

/-- Witness for C10: on a fresh governor acquiring at t = 5, the appended
timestamp in both windows is 5. -/
theorem claim_C10_entry_time_recorded_witness :
    ((RateLimiter.init 25 100).wait_if_needed 5).state.minute_requests.getLast? =
      some 5 ∧
    ((RateLimiter.init 25 100).wait_if_needed 5).state.daily_requests.getLast? =
      some 5 :=
  claim_C10_entry_time_recorded.1 (RateLimiter.init 25 100) 5 (by decide)
